import Mathlib

/-!
Shallow embedding of `src/app.py` (a Flask backend around the GarminDB sync
tool) and proofs about its two request handlers.

Modelling choices, traceable to the source:

* Python dictionaries are reference values and `dict.copy()` is a shallow
  copy, so the module-global `DEFAULT_CONFIG_STRUCTURE` (app.py:46) and every
  "copy" returned by `load_config_template` (app.py:86) share one nested
  `connection` dictionary.  We model that nested dictionary as a cell in a
  heap (`Heap`), addressed by a `Nat`, and `ConfigTop.connection` holds the
  address.  `json.dump` serialises the dereferenced document (`renderConfig`).
* Filesystem and subprocess behaviour is environment input: each handler run
  is parameterised by an oracle saying how `os`/`tempfile` calls, the external
  sync process and the sqlite query resolved.  The possible outcomes are
  exactly the ones the source's exception handlers distinguish.
* `subprocess.run(..., check=True)` (app.py:268) raises `CalledProcessError`
  exactly when the exit code is non-zero, `TimeoutExpired` when a configured
  execution-time bound is exceeded (the `timeout=` argument is commented out
  at app.py:273, so this outcome needs a configured bound), and
  `FileNotFoundError` when the interpreter/tool binary is missing.
* The SQL `SELECT ... ORDER BY start_time_gmt DESC LIMIT n` (app.py:295,
  app.py:358) is embedded as sorting the table's rows by descending
  `start_time_gmt` and taking the first `n`.
* The diagnostic block (app.py:205-237) only logs and swallows its own
  exceptions; it cannot affect the response or the config file, so it is not
  modelled.
-/

namespace GarminApp

/-- A row of the `activities` table, with the five columns the fixed query
selects (app.py:296). -/
structure Activity where
  activity_id : Int
  activity_name : String
  start_time_gmt : String
  distance : Int
  duration : Int
deriving DecidableEq, Repr

/-- The nested `connection` dictionary of the config document (app.py:47-52). -/
structure ConnDict where
  username : String
  password : String
  authentication_method : String
deriving DecidableEq, Repr

/-- The `settings` section of the config document (app.py:53-69); never
mutated by the application, so inlined as a plain value. -/
structure SettingsDict where
  data_directory : String
  database_name : String
  data_types : List String
deriving DecidableEq, Repr

/-- Modelled path of the data directory (app.py:22).  The absolute `APP_ROOT`
prefix is deployment-dependent and irrelevant to every verified claim. -/
def GARMINDB_DATA_DIR : String := ".garmindb_render_data"

/-- The settings section of `DEFAULT_CONFIG_STRUCTURE` (app.py:53-69). -/
def defaultSettings : SettingsDict :=
  { data_directory := GARMINDB_DATA_DIR
    database_name := "garmin.db"
    data_types := ["activities"] }

/-- The top-level config dictionary.  Its `connection` entry is a *reference*
(a heap address) because Python nested dicts are reference values; this is
what makes `DEFAULT_CONFIG_STRUCTURE.copy()` share the connection dict. -/
structure ConfigTop where
  connection : Nat
  settings : SettingsDict
deriving DecidableEq, Repr

/-- Heap of nested connection dictionaries.  The module allocates exactly one
(at address 0, inside `DEFAULT_CONFIG_STRUCTURE`). -/
def Heap : Type := Nat → ConnDict

/-- Heap at module load: the one connection dict holds empty credentials and
the `"GARMIN"` authentication method (app.py:47-52). -/
def initHeap : Heap := fun _ =>
  { username := "", password := "", authentication_method := "GARMIN" }

/-- Write one heap cell. -/
def heapSet (h : Heap) (a : Nat) (c : ConnDict) : Heap :=
  fun a' => if a' = a then c else h a'

/-- `DEFAULT_CONFIG_STRUCTURE` (app.py:46): top-level dict whose `connection`
entry references the heap cell at address 0. -/
def DEFAULT_CONFIG_STRUCTURE : ConfigTop :=
  { connection := 0, settings := defaultSettings }

/-- A fully rendered (dereferenced) config document — what `json.dump`
actually serialises to disk. -/
structure ConfigDoc where
  connection : ConnDict
  settings : SettingsDict
deriving DecidableEq, Repr

/-- Dereference a top-level config dict against the heap, as serialisation
does. -/
def renderConfig (h : Heap) (c : ConfigTop) : ConfigDoc :=
  { connection := h c.connection, settings := c.settings }

/-- `load_config_template` (app.py:83-92): returns
`DEFAULT_CONFIG_STRUCTURE.copy()`.  A shallow copy duplicates only the
top-level record; the `connection` entry is the same heap address. -/
def load_config_template : ConfigTop := DEFAULT_CONFIG_STRUCTURE

/-- Mutable process state visible to the handlers: the heap of Python dicts
and the on-disk config file (`None` when the file does not exist). -/
structure PyState where
  heap : Heap
  configFile : Option ConfigDoc

/-- How the filesystem resolved one `update_config_file` call (app.py:94-132):
`ok` — temp-file write and rename succeeded; `errEarly` —
`ensure_data_dir_exists` raised, before the template was loaded and mutated;
`errLate` — `mkstemp`/`json.dump`/`os.rename` raised, after the shared
connection dict was already mutated (the orphaned temp file is removed, the
canonical config file is untouched). -/
inductive FileOpOutcome
  | ok
  | errEarly
  | errLate
deriving DecidableEq, Repr

/-- How the filesystem resolved one `clear_credentials_in_config` call
(app.py:134-171).  Same cases as `FileOpOutcome`, plus `fileNotFoundLate`:
a `FileNotFoundError` after the mutation, which the function catches and
treats as success (app.py:159-161) even though no file was written. -/
inductive ClearOutcome
  | ok
  | fileNotFoundLate
  | errEarly
  | errLate
deriving DecidableEq, Repr

/-- `update_config_file(username, password)` (app.py:94-132): loads the
template (sharing the global connection dict), sets the two credential fields
in place, then atomically replaces the config file; returns `True` on
success, `False` on any caught exception. -/
def update_config_file (username password : String) (fs : FileOpOutcome)
    (s : PyState) : Bool × PyState :=
  match fs with
  | .errEarly => (false, s)
  | .errLate =>
      let cfg := load_config_template
      let conn := s.heap cfg.connection
      let h1 := heapSet s.heap cfg.connection
        { conn with username := username, password := password }
      (false, { s with heap := h1 })
  | .ok =>
      let cfg := load_config_template
      let conn := s.heap cfg.connection
      let h1 := heapSet s.heap cfg.connection
        { conn with username := username, password := password }
      (true, { heap := h1, configFile := some (renderConfig h1 cfg) })

/-- `clear_credentials_in_config()` (app.py:134-171): same shape as
`update_config_file` but blanks both credential fields; a
`FileNotFoundError` is treated as "already clear" and reported as success. -/
def clear_credentials_in_config (co : ClearOutcome) (s : PyState) :
    Bool × PyState :=
  match co with
  | .errEarly => (false, s)
  | .errLate =>
      let cfg := load_config_template
      let conn := s.heap cfg.connection
      let h1 := heapSet s.heap cfg.connection
        { conn with username := "", password := "" }
      (false, { s with heap := h1 })
  | .fileNotFoundLate =>
      let cfg := load_config_template
      let conn := s.heap cfg.connection
      let h1 := heapSet s.heap cfg.connection
        { conn with username := "", password := "" }
      (true, { s with heap := h1 })
  | .ok =>
      let cfg := load_config_template
      let conn := s.heap cfg.connection
      let h1 := heapSet s.heap cfg.connection
        { conn with username := "", password := "" }
      (true, { heap := h1, configFile := some (renderConfig h1 cfg) })

/-- Lexicographic less-or-equal on character sequences by code point.  SQLite
compares TEXT columns with BINARY collation (bytewise `memcmp`), and on UTF-8
encoded strings bytewise order coincides with code-point order, so this is
the order behind `ORDER BY start_time_gmt`. -/
def strLeb : List Char → List Char → Bool
  | [], _ => true
  | _ :: _, [] => false
  | a :: as, b :: bs =>
      if a.toNat < b.toNat then true
      else if b.toNat < a.toNat then false
      else strLeb as bs

theorem strLeb_total : ∀ as bs : List Char, strLeb as bs = true ∨ strLeb bs as = true
  | [], _ => Or.inl rfl
  | _ :: _, [] => Or.inr rfl
  | a :: as, b :: bs => by
      rcases Nat.lt_trichotomy a.toNat b.toNat with h | h | h
      · exact Or.inl (by simp [strLeb, h])
      · rcases strLeb_total as bs with ih | ih
        · exact Or.inl (by simp [strLeb, h, ih])
        · exact Or.inr (by simp [strLeb, h, ih])
      · exact Or.inr (by simp [strLeb, h])

theorem strLeb_trans : ∀ as bs cs : List Char,
    strLeb as bs = true → strLeb bs cs = true → strLeb as cs = true
  | [], _, _ => fun _ _ => rfl
  | _ :: _, [], _ => fun h _ => by simp [strLeb] at h
  | _ :: _, _ :: _, [] => fun _ h => by simp [strLeb] at h
  | a :: as, b :: bs, c :: cs => fun h1 h2 => by
      simp only [strLeb] at h1 h2 ⊢
      split at h1
      · rename_i hab
        split at h2
        · rename_i hbc
          simp [Nat.lt_trans hab hbc]
        · split at h2
          · exact absurd h2 (by simp)
          · rename_i hcb hbc
            have hbc' : b.toNat = c.toNat := Nat.le_antisymm (Nat.le_of_not_lt hbc) (Nat.le_of_not_lt hcb)
            simp [hbc' ▸ hab]
      · split at h1
        · exact absurd h1 (by simp)
        · rename_i hba hab
          have hab' : a.toNat = b.toNat := Nat.le_antisymm (Nat.le_of_not_lt hab) (Nat.le_of_not_lt hba)
          split at h2
          · rename_i hbc
            simp [hab' ▸ hbc]
          · split at h2
            · exact absurd h2 (by simp)
            · rename_i hcb hbc
              have hbc' : b.toNat = c.toNat := Nat.le_antisymm (Nat.le_of_not_lt hbc) (Nat.le_of_not_lt hcb)
              have hac : a.toNat = c.toNat := hab'.trans hbc'
              simp [hac, Nat.lt_irrefl, strLeb_trans as bs cs h1 h2]

/-- Descending order on activities by `start_time_gmt`
(`ORDER BY start_time_gmt DESC`). -/
def startTimeGe (a b : Activity) : Prop :=
  strLeb b.start_time_gmt.toList a.start_time_gmt.toList = true

instance : DecidableRel startTimeGe := fun a b =>
  inferInstanceAs (Decidable (strLeb b.start_time_gmt.toList a.start_time_gmt.toList = true))

instance : IsTotal Activity startTimeGe :=
  ⟨fun a b => (strLeb_total b.start_time_gmt.toList a.start_time_gmt.toList).imp id id⟩

instance : IsTrans Activity startTimeGe :=
  ⟨fun _ _ _ hab hbc => strLeb_trans _ _ _ hbc hab⟩

/-- Semantics of the fixed query
`SELECT ... FROM activities ORDER BY start_time_gmt DESC LIMIT limit`
(app.py:295-300, app.py:358-363) over a table with rows `db`. -/
def sqlSelectActivities (db : List Activity) (limit : Nat) : List Activity :=
  (List.insertionSort startTimeGe db).take limit

/-- Mode a sqlite connection was opened with.  `sqlite3.connect(path)` with no
`mode=ro` URI opens read-write (app.py:289, app.py:353). -/
inductive OpenMode
  | readWrite
  | readOnly
deriving DecidableEq, Repr

/-- Observed lifecycle of the sqlite connection during one reader call. -/
structure ConnTrace where
  openedMode : Option OpenMode
  closedOnExit : Bool
deriving DecidableEq, Repr

/-- The database-query portion shared verbatim by both routes
(app.py:289-302 and app.py:353-365), entered only after the existence check
on the database file: `conn = sqlite3.connect(path)` (default read-write
mode), `cursor.execute(...)`, `conn.close()`.  If the query raises
`sqlite3.Error` (`queryFails`), the exception propagates before the
`conn.close()` line is reached — there is no `try/finally` or `with` around
the connection. -/
def queryActivities (db : List Activity) (queryFails : Bool) (limit : Nat) :
    Except Unit (List Activity) × ConnTrace :=
  if queryFails then
    (Except.error (), { openedMode := some .readWrite, closedOnExit := false })
  else
    (Except.ok (sqlSelectActivities db limit),
     { openedMode := some .readWrite, closedOnExit := true })

/-- Outcome of `subprocess.run(command, capture_output=True, text=True,
check=True, cwd=...)` (app.py:268-275).  `check=True` raises
`CalledProcessError` exactly when the exit code is non-zero, so `success`
means exit code 0.  `timeoutExpired` models `subprocess.TimeoutExpired`,
possible only when an execution-time bound is configured (the `timeout=120`
argument is commented out at app.py:273).  `fileNotFound` models the
interpreter/tool binary being absent. -/
inductive SyncOutcome
  | success (stdout stderr : String)
  | calledProcessError (returncode : Int) (stdout stderr : String)
  | timeoutExpired (timeoutSecs : Nat) (stdout stderr : String)
  | fileNotFound
deriving DecidableEq, Repr

/-- JSON body of a POST to `/login-and-fetch`; each field is absent or a
string. -/
structure ReqBody where
  username : Option String
  password : Option String
deriving DecidableEq, Repr

/-- Python truthiness test used by `if not username or not password`
(app.py:193): `None` and the empty string are falsy. -/
def pyFalsy : Option String → Bool
  | none => true
  | some s => s == ""

/-- Fields of the JSON response bodies the handlers build; a `none` field is
absent from the body. -/
structure RespBody where
  success : Option Bool := none
  activities : Option (List Activity) := none
  message : Option String := none
  error : Option String := none
deriving DecidableEq, Repr

/-- An HTTP response: status code and JSON body. -/
structure HttpResponse where
  status : Nat
  body : RespBody
deriving DecidableEq, Repr

/-- Which `except` clause of `login_and_fetch`/`get_data` fired, if any. -/
inductive HandledExc
  | calledProcessError
  | timeoutExpired
  | fileNotFoundError
  | sqliteError
deriving DecidableEq, Repr

/-- Environment oracle for one `/login-and-fetch` request: how each
filesystem call, the sync subprocess and the sqlite query resolved, plus the
rows of the `activities` table after the sync. -/
structure LoginEnv where
  updateOutcome : FileOpOutcome
  sync : SyncOutcome
  dbExists : Bool
  db : List Activity
  queryFails : Bool
  clearOutcome : ClearOutcome
deriving Repr

/-- Result of one `/login-and-fetch` request: the HTTP response, the final
process state, and which `except` clause (if any) fired. -/
structure LoginResult where
  resp : HttpResponse
  state : PyState
  handled : Option HandledExc

/-- `login_and_fetch` (app.py:181-338).  Validation (app.py:185-195), config
write (app.py:198-200), then the `try` block running the sync subprocess and
the database query, each `except` clause translating an outcome to a
response, and the `finally` block clearing credentials (app.py:334-338) —
whose failure is logged but never changes the response. -/
def login_and_fetch (body : Option ReqBody) (env : LoginEnv) (s : PyState) :
    LoginResult :=
  match body with
  | none =>
      { resp := { status := 400,
                  body := { error := some "Invalid request. JSON data required." } }
        state := s
        handled := none }
  | some data =>
    if pyFalsy data.username || pyFalsy data.password then
      { resp := { status := 400,
                  body := { error := some "Username and password required" } }
        state := s
        handled := none }
    else
      let username := data.username.getD ""
      let password := data.password.getD ""
      let upd := update_config_file username password env.updateOutcome s
      if upd.1 = false then
        { resp := { status := 500,
                    body := { error := some "Server error: Failed to update configuration. Check server logs." } }
          state := upd.2
          handled := none }
      else
        let inner : HttpResponse × Option HandledExc :=
          match env.sync with
          | .calledProcessError _ _ _ =>
              ({ status := 500,
                 body := { error := some "Failed to sync data with Garmin. Check server logs for details." } },
               some .calledProcessError)
          | .timeoutExpired t _ _ =>
              ({ status := 504,
                 body := { error := some ("Data sync timed out after " ++ toString t ++ " seconds. Try again later or sync less data.") } },
               some .timeoutExpired)
          | .fileNotFound =>
              ({ status := 500,
                 body := { error := some "Server configuration error: garmindb command not found." } },
               some .fileNotFoundError)
          | .success _ _ =>
              if env.dbExists = false then
                ({ status := 200,
                   body := { success := some true, activities := some [],
                             message := some "Sync ran, but no database file found or no new data." } },
                 none)
              else
                match queryActivities env.db env.queryFails 10 with
                | (.error _, _) =>
                    let sync_success := true
                    if sync_success then
                      ({ status := 200,
                         body := { success := some true, activities := some [],
                                   message := some "Sync may have succeeded, but failed to read data afterwards." } },
                       some .sqliteError)
                    else
                      ({ status := 500,
                         body := { error := some "Database error occurred after sync attempt. Check server logs." } },
                       some .sqliteError)
                | (.ok rows, _) =>
                    ({ status := 200,
                       body := { success := some true, activities := some rows } },
                     none)
        let cleared := clear_credentials_in_config env.clearOutcome upd.2
        { resp := inner.1, state := cleared.2, handled := inner.2 }

/-- Environment oracle for one `/get-data` request. -/
structure GetDataEnv where
  dbExists : Bool
  db : List Activity
  queryFails : Bool
deriving Repr

/-- Result of one `/get-data` request. -/
structure GetDataResult where
  resp : HttpResponse
  handled : Option HandledExc

/-- `get_data` (app.py:341-374): existence check on the database file, then
the same query with `LIMIT 20`; a `sqlite3.Error` becomes a 500. -/
def get_data (env : GetDataEnv) : GetDataResult :=
  if env.dbExists = false then
    { resp := { status := 200,
                body := { activities := some [],
                          message := some "No data found. Please login and sync first." } }
      handled := none }
  else
    match queryActivities env.db env.queryFails 20 with
    | (.error _, _) =>
        { resp := { status := 500,
                    body := { error := some "Database error occurred reading data. Check server logs." } }
          handled := some .sqliteError }
    | (.ok rows, _) =>
        { resp := { status := 200, body := { activities := some rows } }
          handled := none }

/-! ### General lemmas about the embedded query -/

/-- The embedded `SELECT ... ORDER BY start_time_gmt DESC LIMIT limit` always
produces a list sorted by descending start time with at most `limit` rows. -/
theorem sqlSelectActivities_sorted_bounded (db : List Activity) (limit : Nat) :
    List.Sorted startTimeGe (sqlSelectActivities db limit) ∧
    (sqlSelectActivities db limit).length ≤ limit := by
  constructor
  · exact (List.sorted_insertionSort startTimeGe db).sublist
      (List.take_sublist limit (List.insertionSort startTimeGe db))
  · rw [sqlSelectActivities, List.length_take]
    exact min_le_left _ _

/-! ### Claim theorems -/

/-- C3: for every `/login-and-fetch` request in which the external sync
process exits with a non-zero exit code (raising `CalledProcessError` under
`check=True`), the handler returns HTTP 500 with an error body that contains
no `activities` key and no `success` key — no partial or stale activity list
is returned. -/
theorem login_sync_failed_returns_500_without_activities
    (data : ReqBody) (env : LoginEnv) (s : PyState)
    (hval : (pyFalsy data.username || pyFalsy data.password) = false)
    (hupd : env.updateOutcome = FileOpOutcome.ok)
    (hsync : ∃ code out err, env.sync = SyncOutcome.calledProcessError code out err) :
    (login_and_fetch (some data) env s).resp.status = 500 ∧
    (login_and_fetch (some data) env s).resp.body.activities = none ∧
    (login_and_fetch (some data) env s).resp.body.success = none ∧
    (login_and_fetch (some data) env s).resp.body.error =
      some "Failed to sync data with Garmin. Check server logs for details." := by
  obtain ⟨code, out, err, hsync⟩ := hsync
  simp [login_and_fetch, hval, hupd, hsync, update_config_file]

/-- C3 witness: a concrete request whose sync exits with code 1 gets the 500
response without an activity list. -/
theorem login_sync_failed_returns_500_without_activities_witness :
    (pyFalsy (some "u") || pyFalsy (some "p")) = false ∧
    ({ updateOutcome := .ok, sync := .calledProcessError 1 "o" "e", dbExists := true,
       db := [], queryFails := false, clearOutcome := .ok } : LoginEnv).updateOutcome
        = FileOpOutcome.ok ∧
    (login_and_fetch (some { username := some "u", password := some "p" })
      { updateOutcome := .ok, sync := .calledProcessError 1 "o" "e", dbExists := true,
        db := [], queryFails := false, clearOutcome := .ok }
      { heap := initHeap, configFile := none }).resp.status = 500 ∧
    (login_and_fetch (some { username := some "u", password := some "p" })
      { updateOutcome := .ok, sync := .calledProcessError 1 "o" "e", dbExists := true,
        db := [], queryFails := false, clearOutcome := .ok }
      { heap := initHeap, configFile := none }).resp.body.activities = none := by
  refine ⟨by decide, rfl, ?_, ?_⟩
  · exact (login_sync_failed_returns_500_without_activities _ _ _ (by decide) rfl
      ⟨1, "o", "e", rfl⟩).1
  · exact (login_sync_failed_returns_500_without_activities _ _ _ (by decide) rfl
      ⟨1, "o", "e", rfl⟩).2.1

/-- C4: for every `/login-and-fetch` request in which the sync process exits
with code zero but the database file does not exist afterwards, the handler
returns HTTP 200 with `success: true`, an empty activity list, and an
explanatory `message` field. -/
theorem login_sync_ok_db_missing_returns_200_empty
    (data : ReqBody) (env : LoginEnv) (s : PyState)
    (hval : (pyFalsy data.username || pyFalsy data.password) = false)
    (hupd : env.updateOutcome = FileOpOutcome.ok)
    (hsync : ∃ out err, env.sync = SyncOutcome.success out err)
    (hdb : env.dbExists = false) :
    (login_and_fetch (some data) env s).resp.status = 200 ∧
    (login_and_fetch (some data) env s).resp.body.success = some true ∧
    (login_and_fetch (some data) env s).resp.body.activities = some [] ∧
    (login_and_fetch (some data) env s).resp.body.message =
      some "Sync ran, but no database file found or no new data." := by
  obtain ⟨out, err, hsync⟩ := hsync
  simp [login_and_fetch, hval, hupd, hsync, hdb, update_config_file]

/-- C4 witness: a concrete request with a zero-exit sync and an absent
database file gets the empty-list 200 response. -/
theorem login_sync_ok_db_missing_returns_200_empty_witness :
    (pyFalsy (some "u") || pyFalsy (some "p")) = false ∧
    ({ updateOutcome := .ok, sync := .success "o" "e", dbExists := false,
       db := [], queryFails := false, clearOutcome := .ok } : LoginEnv).dbExists = false ∧
    (login_and_fetch (some { username := some "u", password := some "p" })
      { updateOutcome := .ok, sync := .success "o" "e", dbExists := false,
        db := [], queryFails := false, clearOutcome := .ok }
      { heap := initHeap, configFile := none }).resp.status = 200 ∧
    (login_and_fetch (some { username := some "u", password := some "p" })
      { updateOutcome := .ok, sync := .success "o" "e", dbExists := false,
        db := [], queryFails := false, clearOutcome := .ok }
      { heap := initHeap, configFile := none }).resp.body.activities = some [] := by
  refine ⟨by decide, rfl, ?_, ?_⟩
  · exact (login_sync_ok_db_missing_returns_200_empty _ _ _ (by decide) rfl
      ⟨"o", "e", rfl⟩ rfl).1
  · exact (login_sync_ok_db_missing_returns_200_empty _ _ _ (by decide) rfl
      ⟨"o", "e", rfl⟩ rfl).2.2.1

/-- C6: for every GET to `/get-data` when the database file does not exist,
the handler returns HTTP 200 with an empty activity list and a
distinguishing `message` field, and no `error` key. -/
theorem getData_db_missing_returns_200_empty
    (env : GetDataEnv) (h : env.dbExists = false) :
    (get_data env).resp.status = 200 ∧
    (get_data env).resp.body.activities = some [] ∧
    (get_data env).resp.body.message =
      some "No data found. Please login and sync first." ∧
    (get_data env).resp.body.error = none := by
  simp [get_data, h]

/-- C6 witness: the concrete no-database environment gets the empty 200
response. -/
theorem getData_db_missing_returns_200_empty_witness :
    ({ dbExists := false, db := [], queryFails := false } : GetDataEnv).dbExists = false ∧
    (get_data { dbExists := false, db := [], queryFails := false }).resp.status = 200 ∧
    (get_data { dbExists := false, db := [], queryFails := false }).resp.body.error = none := by
  refine ⟨rfl, ?_, ?_⟩
  · exact (getData_db_missing_returns_200_empty _ rfl).1
  · exact (getData_db_missing_returns_200_empty _ rfl).2.2.2

/-- C7 counterexample: on a concrete reader invocation with an existing
database whose query raises, the connection was opened in the default
read-write mode (not read-only) and was not closed on exit — refuting both
parts of the claim that the database is opened read-only with guaranteed
closure on every exit path. -/
theorem queryActivities_read_only_closure_counterexample :
    (queryActivities [] true 20).2.openedMode = some OpenMode.readWrite ∧
    (queryActivities [] true 20).2.openedMode ≠ some OpenMode.readOnly ∧
    (queryActivities [] true 20).2.closedOnExit = false := by
  decide

/-- C7 (amended): every invocation of the Activity Reader on an existing
database opens the connection with `sqlite3.connect`'s default read-write
mode, and explicitly closes it exactly on the success path; when the query
raises, the connection is not closed by the code. -/
theorem queryActivities_opens_read_write_closes_only_on_success
    (db : List Activity) (queryFails : Bool) (limit : Nat) :
    (queryActivities db queryFails limit).2.openedMode = some OpenMode.readWrite ∧
    (queryActivities db queryFails limit).2.closedOnExit = !queryFails := by
  cases queryFails <;> simp [queryActivities]

/-- C10: a successful `update_config_file u p` mutates the module-global
`DEFAULT_CONFIG_STRUCTURE` in place (the shallow `copy()` shares the nested
connection dict), so the submitted credentials persist in process-global
state — and appear in the document any later template load would serialise —
until `clear_credentials_in_config` resets the shared fields to empty
strings. -/
theorem update_config_file_pollutes_global_until_cleared
    (s : PyState) (u p : String) :
    (update_config_file u p FileOpOutcome.ok s).1 = true ∧
    ((update_config_file u p FileOpOutcome.ok s).2.heap
        DEFAULT_CONFIG_STRUCTURE.connection).username = u ∧
    ((update_config_file u p FileOpOutcome.ok s).2.heap
        DEFAULT_CONFIG_STRUCTURE.connection).password = p ∧
    (renderConfig (update_config_file u p FileOpOutcome.ok s).2.heap
        load_config_template).connection.username = u ∧
    (renderConfig (update_config_file u p FileOpOutcome.ok s).2.heap
        load_config_template).connection.password = p ∧
    ((clear_credentials_in_config ClearOutcome.ok
        (update_config_file u p FileOpOutcome.ok s).2).2.heap
        DEFAULT_CONFIG_STRUCTURE.connection).username = "" ∧
    ((clear_credentials_in_config ClearOutcome.ok
        (update_config_file u p FileOpOutcome.ok s).2).2.heap
        DEFAULT_CONFIG_STRUCTURE.connection).password = "" := by
  simp [update_config_file, clear_credentials_in_config, renderConfig,
    heapSet, load_config_template, DEFAULT_CONFIG_STRUCTURE]

/-- C1 counterexample: a concrete validated request whose config write and
sync succeed but whose final clearing write fails (`clear_credentials_in_config`
returns `False`, app.py:162-171, and the handler only logs, app.py:336-338)
leaves the submitted credentials — not empty strings — in the on-disk config
file after the handler completes. -/
theorem login_clear_failure_leaves_credentials_counterexample :
    ((login_and_fetch (some { username := some "alice", password := some "secret" })
        { updateOutcome := .ok, sync := .success "" "", dbExists := false, db := [],
          queryFails := false, clearOutcome := .errLate }
        { heap := initHeap, configFile := none }).state.configFile.map
      (fun d => (d.connection.username, d.connection.password))) = some ("alice", "secret") ∧
    (("alice", "secret") : String × String) ≠ ("", "") := by
  exact ⟨rfl, by decide⟩

/-- C1 (amended): for every POST to `/login-and-fetch` that passes credential
validation and whose config write succeeded, after the handler completes —
whatever the sync, database-existence and query outcomes were — the on-disk
config file's `connection.username` and `connection.password` fields are
empty strings, provided the guaranteed final clearing write itself succeeds;
if that write fails, the handler only logs a critical warning and the file
can retain the credentials. -/
theorem login_clears_credentials_when_clear_write_succeeds
    (data : ReqBody) (env : LoginEnv) (s : PyState)
    (hval : (pyFalsy data.username || pyFalsy data.password) = false)
    (hupd : env.updateOutcome = FileOpOutcome.ok)
    (hclr : env.clearOutcome = ClearOutcome.ok) :
    ((login_and_fetch (some data) env s).state.configFile.map
        (fun d => (d.connection.username, d.connection.password))) = some ("", "") := by
  simp [login_and_fetch, hval, hupd, hclr, update_config_file,
    clear_credentials_in_config, renderConfig, heapSet, load_config_template,
    DEFAULT_CONFIG_STRUCTURE]

/-- C1 witness: a concrete request (here with a failing sync, exercising an
error branch) ends with empty credential fields on disk. -/
theorem login_clears_credentials_when_clear_write_succeeds_witness :
    (pyFalsy (some "alice") || pyFalsy (some "secret")) = false ∧
    ({ updateOutcome := .ok, sync := .calledProcessError 1 "o" "e", dbExists := false,
       db := [], queryFails := false, clearOutcome := .ok } : LoginEnv).clearOutcome
        = ClearOutcome.ok ∧
    ((login_and_fetch (some { username := some "alice", password := some "secret" })
        { updateOutcome := .ok, sync := .calledProcessError 1 "o" "e", dbExists := false,
          db := [], queryFails := false, clearOutcome := .ok }
        { heap := initHeap, configFile := none }).state.configFile.map
      (fun d => (d.connection.username, d.connection.password))) = some ("", "") := by
  refine ⟨by decide, rfl, ?_⟩
  exact login_clears_credentials_when_clear_write_succeeds _ _ _ (by decide) rfl rfl

/-- C2: for every POST to `/login-and-fetch` whose body is missing or has a
missing or empty username or password, the handler returns HTTP 400 and the
process state — in particular the on-disk config file — is unchanged:
`update_config_file` is never reached. -/
theorem login_invalid_body_returns_400_without_write
    (body : Option ReqBody) (env : LoginEnv) (s : PyState)
    (h : body = none ∨ ∃ data, body = some data ∧
        (pyFalsy data.username || pyFalsy data.password) = true) :
    (login_and_fetch body env s).resp.status = 400 ∧
    (login_and_fetch body env s).state = s := by
  rcases h with rfl | ⟨data, rfl, hval⟩
  · exact ⟨rfl, rfl⟩
  · simp [login_and_fetch, hval]

/-- C2 witness: a concrete request with an empty username gets a 400 and
leaves the state untouched. -/
theorem login_invalid_body_returns_400_without_write_witness :
    ((some { username := some "", password := some "p" } : Option ReqBody) = none ∨
      ∃ data, (some { username := some "", password := some "p" } : Option ReqBody)
          = some data ∧ (pyFalsy data.username || pyFalsy data.password) = true) ∧
    (login_and_fetch (some { username := some "", password := some "p" })
      { updateOutcome := .ok, sync := .success "" "", dbExists := false, db := [],
        queryFails := false, clearOutcome := .ok }
      { heap := initHeap, configFile := none }).resp.status = 400 ∧
    (login_and_fetch (some { username := some "", password := some "p" })
      { updateOutcome := .ok, sync := .success "" "", dbExists := false, db := [],
        queryFails := false, clearOutcome := .ok }
      { heap := initHeap, configFile := none }).state
      = { heap := initHeap, configFile := none } := by
  refine ⟨Or.inr ⟨_, rfl, by decide⟩, ?_, ?_⟩
  · exact (login_invalid_body_returns_400_without_write _ _ _
      (Or.inr ⟨_, rfl, by decide⟩)).1
  · exact (login_invalid_body_returns_400_without_write _ _ _
      (Or.inr ⟨_, rfl, by decide⟩)).2

/-- Every activity list `/login-and-fetch` puts in a response body is either
empty or the result of the embedded `LIMIT 10` query. -/
theorem login_activities_cases (body : Option ReqBody) (env : LoginEnv)
    (s : PyState) (rows : List Activity)
    (h : (login_and_fetch body env s).resp.body.activities = some rows) :
    rows = [] ∨ rows = sqlSelectActivities env.db 10 := by
  rcases body with _ | data
  · simp [login_and_fetch] at h
  · by_cases hval : (pyFalsy data.username || pyFalsy data.password) = true
    · simp [login_and_fetch, hval] at h
    · rw [Bool.not_eq_true] at hval
      rcases env with ⟨upd, sync, dbE, db, qf, clr⟩
      cases upd <;> cases sync <;> cases dbE <;> cases qf <;>
        simp_all [login_and_fetch, update_config_file, queryActivities]

/-- Every activity list `/get-data` puts in a response body is either empty
or the result of the embedded `LIMIT 20` query. -/
theorem getData_activities_cases (env : GetDataEnv) (rows : List Activity)
    (h : (get_data env).resp.body.activities = some rows) :
    rows = [] ∨ rows = sqlSelectActivities env.db 20 := by
  rcases env with ⟨dbE, db, qf⟩
  cases dbE <;> cases qf <;>
    simp_all [get_data, queryActivities]

/-- C5: every activity list returned by either route is sorted in descending
order of `start_time_gmt` and is truncated to at most 10 records for
`/login-and-fetch` and at most 20 records for `/get-data`. -/
theorem routes_return_sorted_truncated
    (body : Option ReqBody) (env : LoginEnv) (s : PyState)
    (env2 : GetDataEnv) (rows rows2 : List Activity) :
    ((login_and_fetch body env s).resp.body.activities = some rows →
        List.Sorted startTimeGe rows ∧ rows.length ≤ 10) ∧
    ((get_data env2).resp.body.activities = some rows2 →
        List.Sorted startTimeGe rows2 ∧ rows2.length ≤ 20) := by
  refine ⟨fun h => ?_, fun h => ?_⟩
  · rcases login_activities_cases body env s rows h with rfl | rfl
    · exact ⟨List.sorted_nil, by simp⟩
    · exact sqlSelectActivities_sorted_bounded env.db 10
  · rcases getData_activities_cases env2 rows2 h with rfl | rfl
    · exact ⟨List.sorted_nil, by simp⟩
    · exact sqlSelectActivities_sorted_bounded env2.db 20

/-- C5 witness: a concrete database with start times T1 > T2 > T3 stored out
of order comes back as the descending sequence [T1, T2, T3] on both routes,
sorted and within the route limits. -/
theorem routes_return_sorted_truncated_witness :
    (login_and_fetch (some { username := some "u", password := some "p" })
      { updateOutcome := .ok, sync := .success "" "", dbExists := true,
        db := [⟨3, "c", "2024-01-03", 0, 0⟩, ⟨1, "a", "2024-01-01", 0, 0⟩,
               ⟨2, "b", "2024-01-02", 0, 0⟩],
        queryFails := false, clearOutcome := .ok }
      { heap := initHeap, configFile := none }).resp.body.activities
      = some [⟨3, "c", "2024-01-03", 0, 0⟩, ⟨2, "b", "2024-01-02", 0, 0⟩,
              ⟨1, "a", "2024-01-01", 0, 0⟩] ∧
    List.Sorted startTimeGe
      [⟨3, "c", "2024-01-03", 0, 0⟩, ⟨2, "b", "2024-01-02", 0, 0⟩,
       ⟨1, "a", "2024-01-01", 0, 0⟩] ∧
    ([⟨3, "c", "2024-01-03", 0, 0⟩, ⟨2, "b", "2024-01-02", 0, 0⟩,
      ⟨1, "a", "2024-01-01", 0, 0⟩] : List Activity).length ≤ 10 := by
  refine ⟨by decide, ?_⟩
  exact (routes_return_sorted_truncated
    (some { username := some "u", password := some "p" })
    { updateOutcome := .ok, sync := .success "" "", dbExists := true,
      db := [⟨3, "c", "2024-01-03", 0, 0⟩, ⟨1, "a", "2024-01-01", 0, 0⟩,
             ⟨2, "b", "2024-01-02", 0, 0⟩],
      queryFails := false, clearOutcome := .ok }
    { heap := initHeap, configFile := none }
    { dbExists := false, db := [], queryFails := false }
    [⟨3, "c", "2024-01-03", 0, 0⟩, ⟨2, "b", "2024-01-02", 0, 0⟩,
     ⟨1, "a", "2024-01-01", 0, 0⟩] []).1 (by decide)

/-- C8: whenever the `sqlite3.Error` handler of `/login-and-fetch` fires
(the post-sync query failed with a storage error), the sync itself had
already reported success — the 500 branch for a storage error without sync
success is unreachable — and the handler returns HTTP 200 with
`success: true`, an empty activity list and an explanatory message. -/
theorem login_storage_error_downgraded_when_sync_succeeded
    (body : Option ReqBody) (env : LoginEnv) (s : PyState)
    (h : (login_and_fetch body env s).handled = some HandledExc.sqliteError) :
    (∃ out err, env.sync = SyncOutcome.success out err) ∧
    (login_and_fetch body env s).resp.status = 200 ∧
    (login_and_fetch body env s).resp.body.success = some true ∧
    (login_and_fetch body env s).resp.body.activities = some [] ∧
    (login_and_fetch body env s).resp.body.message =
      some "Sync may have succeeded, but failed to read data afterwards." := by
  rcases body with _ | data
  · simp [login_and_fetch] at h
  · by_cases hval : (pyFalsy data.username || pyFalsy data.password) = true
    · simp [login_and_fetch, hval] at h
    · rw [Bool.not_eq_true] at hval
      rcases env with ⟨upd, sync, dbE, db, qf, clr⟩
      cases upd <;> cases sync <;> cases dbE <;> cases qf <;>
        simp_all [login_and_fetch, update_config_file, queryActivities]

/-- C8 witness: a concrete request whose sync exits zero and whose post-sync
query raises gets the downgraded 200 with an empty list. -/
theorem login_storage_error_downgraded_when_sync_succeeded_witness :
    (login_and_fetch (some { username := some "u", password := some "p" })
      { updateOutcome := .ok, sync := .success "o" "e", dbExists := true, db := [],
        queryFails := true, clearOutcome := .ok }
      { heap := initHeap, configFile := none }).handled = some HandledExc.sqliteError ∧
    (login_and_fetch (some { username := some "u", password := some "p" })
      { updateOutcome := .ok, sync := .success "o" "e", dbExists := true, db := [],
        queryFails := true, clearOutcome := .ok }
      { heap := initHeap, configFile := none }).resp.status = 200 ∧
    (login_and_fetch (some { username := some "u", password := some "p" })
      { updateOutcome := .ok, sync := .success "o" "e", dbExists := true, db := [],
        queryFails := true, clearOutcome := .ok }
      { heap := initHeap, configFile := none }).resp.body.activities = some [] := by
  refine ⟨by decide, ?_, ?_⟩
  · exact (login_storage_error_downgraded_when_sync_succeeded _ _ _ (by decide)).2.1
  · exact (login_storage_error_downgraded_when_sync_succeeded _ _ _ (by decide)).2.2.2.1

/-- C9: when the sync subprocess raises `TimeoutExpired` (possible once an
execution-time bound is configured; the `timeout=` argument is commented out
in the shipped invocation), the handler returns HTTP 504 — distinguished
from the generic 500 of a non-zero exit — and the error body is a fixed
function of the timeout bound alone: two requests differing in credentials,
captured streams, database contents and prior state get identical responses,
so no internal detail is revealed. -/
theorem login_timeout_returns_504_distinguished
    (dataA dataB dataC : ReqBody) (envA envB envC : LoginEnv)
    (sA sB sC : PyState) (t : Nat)
    (outA errA outB errB outC errC : String) (code : Int)
    (hvA : (pyFalsy dataA.username || pyFalsy dataA.password) = false)
    (hvB : (pyFalsy dataB.username || pyFalsy dataB.password) = false)
    (hvC : (pyFalsy dataC.username || pyFalsy dataC.password) = false)
    (huA : envA.updateOutcome = FileOpOutcome.ok)
    (huB : envB.updateOutcome = FileOpOutcome.ok)
    (huC : envC.updateOutcome = FileOpOutcome.ok)
    (hsA : envA.sync = SyncOutcome.timeoutExpired t outA errA)
    (hsB : envB.sync = SyncOutcome.timeoutExpired t outB errB)
    (hsC : envC.sync = SyncOutcome.calledProcessError code outC errC) :
    (login_and_fetch (some dataA) envA sA).resp.status = 504 ∧
    (login_and_fetch (some dataA) envA sA).resp.body.error =
      some ("Data sync timed out after " ++ toString t
        ++ " seconds. Try again later or sync less data.") ∧
    (login_and_fetch (some dataA) envA sA).resp.body.activities = none ∧
    (login_and_fetch (some dataA) envA sA).resp
      = (login_and_fetch (some dataB) envB sB).resp ∧
    (login_and_fetch (some dataC) envC sC).resp.status = 500 := by
  simp [login_and_fetch, hvA, hvB, hvC, huA, huB, huC, hsA, hsB, hsC,
    update_config_file]

/-- C9 witness: two concrete timeout requests with different credentials,
streams and states receive the same 504 response, while a non-zero-exit
request receives a 500. -/
theorem login_timeout_returns_504_distinguished_witness :
    (login_and_fetch (some { username := some "u", password := some "p" })
      { updateOutcome := .ok, sync := .timeoutExpired 5 "oA" "eA", dbExists := true,
        db := [], queryFails := false, clearOutcome := .ok }
      { heap := initHeap, configFile := none }).resp.status = 504 ∧
    (login_and_fetch (some { username := some "u", password := some "p" })
      { updateOutcome := .ok, sync := .timeoutExpired 5 "oA" "eA", dbExists := true,
        db := [], queryFails := false, clearOutcome := .ok }
      { heap := initHeap, configFile := none }).resp
      = (login_and_fetch (some { username := some "x", password := some "y" })
          { updateOutcome := .ok, sync := .timeoutExpired 5 "oB" "eB", dbExists := false,
            db := [], queryFails := true, clearOutcome := .errLate }
          { heap := initHeap, configFile := none }).resp ∧
    (login_and_fetch (some { username := some "u", password := some "p" })
      { updateOutcome := .ok, sync := .calledProcessError 2 "oC" "eC", dbExists := true,
        db := [], queryFails := false, clearOutcome := .ok }
      { heap := initHeap, configFile := none }).resp.status = 500 := by
  have h := login_timeout_returns_504_distinguished
    { username := some "u", password := some "p" }
    { username := some "x", password := some "y" }
    { username := some "u", password := some "p" }
    { updateOutcome := .ok, sync := .timeoutExpired 5 "oA" "eA", dbExists := true,
      db := [], queryFails := false, clearOutcome := .ok }
    { updateOutcome := .ok, sync := .timeoutExpired 5 "oB" "eB", dbExists := false,
      db := [], queryFails := true, clearOutcome := .errLate }
    { updateOutcome := .ok, sync := .calledProcessError 2 "oC" "eC", dbExists := true,
      db := [], queryFails := false, clearOutcome := .ok }
    { heap := initHeap, configFile := none }
    { heap := initHeap, configFile := none }
    { heap := initHeap, configFile := none }
    5 "oA" "eA" "oB" "eB" "oC" "eC" 2
    (by decide) (by decide) (by decide) rfl rfl rfl rfl rfl rfl
  exact ⟨h.1, h.2.2.2.1, h.2.2.2.2⟩

end GarminApp
